import Mathlib

/-!
Verification development for the room-reservation system (src/app.py).

The Python layer under src/ performs input validation, an availability
pre-check and UI-level role gating; the scheduling core itself lives in
database-resident stored procedures (`sp_ReserverSalle`,
`sp_ValiderReservation`, `sp_AnnulerReservation`) and the function
`dbo.fn_SalleDisponible`, which are not part of the source tree.  Those
are modelled from the spec (sections 3, 4.3, 4.4, 5) and carry a
`Modelled from the spec:` doc comment; everything else is translated
directly from src/app.py.

Times of day are minutes since midnight (Nat); dates are day numbers
(Nat); subjects are lists of characters so that Python's `str.strip`
can be reproduced exactly.
-/

namespace SalleRes

/-- The reservation statuses stored in the `Statut` column, as displayed by
`mes_reservations_page` (src/app.py lines 280-287): `EnAttente` (Pending),
`Validee` (Approved), `Refusee` (Rejected), `Annulee` (Cancelled). -/
inductive Statut where
  | enAttente
  | validee
  | refusee
  | annulee
deriving DecidableEq, Repr

/-- User roles from the `Role` column; `validation_page` grants access to
`Manager` and `Admin` only (src/app.py line 304). -/
inductive Role where
  | employe
  | manager
  | admin
deriving DecidableEq, Repr

/-- Error taxonomy of the engine.  The three `invalidInput…` constructors
keep the distinct French error messages of `reservation_page` apart
(lines 217, 221) so that check ordering is observable. -/
inductive EngineError where
  | invalidInputEmptySubject
  | invalidInputBadInterval
  | invalidInputDuration
  | notFound
  | conflict
  | illegalTransition
  | forbidden
  | storageUnavailable
deriving DecidableEq, Repr

/-- An event type row of `TypesEvenements` (src/app.py lines 94-101):
identifier plus duration bounds in minutes. -/
structure TypeEvenement where
  typeID : Nat
  dureeMin : Nat
  dureeMax : Nat
deriving DecidableEq, Repr

/-- A row of the `Reservations` table, with the columns used by
src/app.py (lines 103-129, 230-239). -/
structure Reservation where
  reservationID : Nat
  userID : Nat
  salleID : Nat
  typeID : Nat
  objetReunion : List Char
  dateReservation : Nat
  heureDebut : Nat
  heureFin : Nat
  statut : Statut
  dateCreation : Nat
deriving DecidableEq, Repr

/-- A status counts as active when it is `EnAttente` or `Validee`; only
those block a room (spec section 3). -/
def actif (s : Statut) : Bool :=
  s == .enAttente || s == .validee

/-- A status is terminal when it is `Refusee` or `Annulee` (spec section 3). -/
def terminal (s : Statut) : Bool :=
  s == .refusee || s == .annulee

/-- Half-open overlap of reservation `r` with the candidate slot
`(salleID, dateRes, hd, hf)`: same room, same date, and
`start_a < end_b AND start_b < end_a` (spec section 3). -/
def chevauche (r : Reservation) (salleID dateRes hd hf : Nat) : Bool :=
  r.salleID == salleID && r.dateReservation == dateRes &&
    decide (r.heureDebut < hf) && decide (hd < r.heureFin)

/-- Modelled from the spec: the database function `dbo.fn_SalleDisponible`
called by `check_availability` (src/app.py line 134) is not in the source
tree.  Per spec section 4.2, a room is available for an interval iff no
*active* reservation on the same room and date overlaps it under the
half-open rule. -/
def fn_SalleDisponible (db : List Reservation) (salleID dateRes hd hf : Nat) : Bool :=
  db.all (fun r => !(actif r.statut && chevauche r salleID dateRes hd hf))

/-- `check_availability` (src/app.py lines 131-137) runs
`fn_SalleDisponible` through `execute_query`; when the query raises,
`execute_query` returns an empty DataFrame (lines 42-44) and
`check_availability` falls into its `else False` branch (line 137).
`storageOk` models whether the lookup succeeds. -/
def check_availability (storageOk : Bool) (db : List Reservation)
    (salleID dateRes hd hf : Nat) : Bool :=
  if storageOk then fn_SalleDisponible db salleID dateRes hd hf else false

/-- The whole mutable world the operations touch: the `Reservations`
table plus identity/creation-time counters, the storage-health flag, and
the immutable catalogs (`Salles`, `TypesEvenements`). -/
structure EngineState where
  db : List Reservation
  nextId : Nat
  clock : Nat
  storageOk : Bool
  salles : List Nat
  types : List TypeEvenement
deriving Repr

/-- The reservation row that `sp_ReserverSalle` inserts for a request,
status initially `EnAttente` (spec section 4.5 step 5). -/
def mkReservation (st : EngineState) (u s t : Nat) (o : List Char)
    (d hd hf : Nat) : Reservation :=
  { reservationID := st.nextId, userID := u, salleID := s, typeID := t,
    objetReunion := o, dateReservation := d, heureDebut := hd,
    heureFin := hf, statut := .enAttente, dateCreation := st.clock }

/-- Modelled from the spec: the stored procedure `sp_ReserverSalle`
invoked by `reservation_page` (src/app.py line 241) is not in the source
tree.  Per spec sections 4.3 and 5 it is the atomic `CreateIfAvailable`:
room and event-type lookup (`NotFound`), interval and duration
validation against `[DureeMin, DureeMax]` (`InvalidInput`), a defensive
re-check of availability inside the serialized unit (`Conflict`), then
the insert with status `EnAttente`. -/
def sp_ReserverSalle (st : EngineState) (u s t : Nat) (o : List Char)
    (d hd hf : Nat) : EngineState × Except EngineError Unit :=
  if !st.storageOk then (st, .error .storageUnavailable)
  else if !(st.salles.contains s) then (st, .error .notFound)
  else match st.types.find? (fun te => te.typeID == t) with
  | none => (st, .error .notFound)
  | some te =>
    if hf ≤ hd then (st, .error .invalidInputBadInterval)
    else if hf - hd < te.dureeMin || te.dureeMax < hf - hd then
      (st, .error .invalidInputDuration)
    else if !(fn_SalleDisponible st.db s d hd hf) then
      (st, .error .conflict)
    else
      ({ st with db := mkReservation st u s t o d hd hf :: st.db,
                 nextId := st.nextId + 1, clock := st.clock + 1 }, .ok ())

/-- Python `str.isspace` characters relevant to `str.strip` in the ASCII
range: space, tab, newline, carriage return, vertical tab, form feed. -/
def pyIsSpace (c : Char) : Bool :=
  c == ' ' || c == '\t' || c == '\n' || c == '\r' || c == '\x0b' || c == '\x0c'

/-- Python `str.strip()` as used at src/app.py lines 216 and 234: drop
leading and trailing whitespace. -/
def pyStrip (s : List Char) : List Char :=
  ((s.dropWhile pyIsSpace).reverse.dropWhile pyIsSpace).reverse

/-- The submit handler of `reservation_page` (src/app.py lines 214-243):
reject a subject that strips to empty (line 216), reject `heure_fin <=
heure_debut` (line 220), pre-check availability (line 225), then call
`sp_ReserverSalle` with the stripped subject (lines 230-241). -/
def reservation_page (st : EngineState) (u s t : Nat) (o : List Char)
    (d hd hf : Nat) : EngineState × Except EngineError Unit :=
  if (pyStrip o).isEmpty then (st, .error .invalidInputEmptySubject)
  else if hf ≤ hd then (st, .error .invalidInputBadInterval)
  else if !(check_availability st.storageOk st.db s d hd hf) then
    (st, .error .conflict)
  else
    sp_ReserverSalle st u s t (pyStrip o) d hd hf

/-- The per-row status update of `sp_ValiderReservation`: a row moves
`EnAttente → Validee` only when it is the targeted reservation and still
pending. -/
def validerMap (resID : Nat) (e : Reservation) : Reservation :=
  if e.reservationID == resID && e.statut == Statut.enAttente then
    { e with statut := .validee } else e

/-- The per-row status update of `sp_AnnulerReservation`: a row moves to
`Annulee` only when it is the targeted reservation and still active. -/
def annulerMap (resID : Nat) (e : Reservation) : Reservation :=
  if e.reservationID == resID && actif e.statut then
    { e with statut := .annulee } else e

/-- Modelled from the spec: the stored procedure `sp_ValiderReservation`
invoked by `validation_page` (src/app.py line 345) is not in the source
tree.  Per spec section 4.4 it performs the Approve transition
`EnAttente → Validee`, failing with `NotFound` for a missing reservation
and `IllegalTransition` from any other status; the role gate is
performed by the calling page. -/
def sp_ValiderReservation (st : EngineState) (managerID resID : Nat) :
    EngineState × Except EngineError Unit :=
  if !st.storageOk then (st, .error .storageUnavailable)
  else match st.db.find? (fun e => e.reservationID == resID) with
  | none => (st, .error .notFound)
  | some r =>
    if r.statut == Statut.enAttente then
      ({ st with db := st.db.map (validerMap resID) }, .ok ())
    else (st, .error .illegalTransition)

/-- Modelled from the spec: the stored procedure `sp_AnnulerReservation`
invoked at src/app.py lines 296 and 357 is not in the source tree.  Per
spec section 4.4 it performs the Cancel transition
`EnAttente/Validee → Annulee`, allowed to the requester or a
Manager/Admin (`Forbidden` otherwise), failing with `NotFound` for a
missing reservation and `IllegalTransition` from a terminal status. -/
def sp_AnnulerReservation (st : EngineState) (userID : Nat) (role : Role)
    (resID : Nat) : EngineState × Except EngineError Unit :=
  if !st.storageOk then (st, .error .storageUnavailable)
  else match st.db.find? (fun e => e.reservationID == resID) with
  | none => (st, .error .notFound)
  | some r =>
    if !(r.userID == userID || role == Role.manager || role == Role.admin) then
      (st, .error .forbidden)
    else if actif r.statut then
      ({ st with db := st.db.map (annulerMap resID) }, .ok ())
    else (st, .error .illegalTransition)

/-- The Valider button flow of `validation_page` (src/app.py lines
302-347): the page refuses any role other than Manager/Admin before
touching the database (lines 304-306), then runs
`sp_ValiderReservation` (line 345). -/
def validerAction (st : EngineState) (role : Role) (managerID resID : Nat) :
    EngineState × Except EngineError Unit :=
  if !(role == Role.manager || role == Role.admin) then (st, .error .forbidden)
  else sp_ValiderReservation st managerID resID

/-- The Refuser button flow of `validation_page` (src/app.py lines
302-306 and 349-359): the same role gate, after which the code invokes
the *cancellation* procedure `sp_AnnulerReservation` (line 357) rather
than a rejection procedure. -/
def refuserAction (st : EngineState) (role : Role) (managerID resID : Nat) :
    EngineState × Except EngineError Unit :=
  if !(role == Role.manager || role == Role.admin) then (st, .error .forbidden)
  else sp_AnnulerReservation st managerID role resID

/-- The Annuler button flow of `mes_reservations_page` (src/app.py lines
289-298): the user cancels one of their own reservations through
`sp_AnnulerReservation`. -/
def annulerAction (st : EngineState) (userID : Nat) (role : Role)
    (resID : Nat) : EngineState × Except EngineError Unit :=
  sp_AnnulerReservation st userID role resID

/-- The operations a user session can trigger against the store. -/
inductive Op where
  | request (u s t : Nat) (o : List Char) (d hd hf : Nat)
  | valider (role : Role) (managerID resID : Nat)
  | refuser (role : Role) (managerID resID : Nat)
  | annuler (userID : Nat) (role : Role) (resID : Nat)

/-- Dispatch one operation. -/
def applyOp (st : EngineState) : Op → EngineState × Except EngineError Unit
  | .request u s t o d hd hf => reservation_page st u s t o d hd hf
  | .valider role m r => validerAction st role m r
  | .refuser role m r => refuserAction st role m r
  | .annuler u role r => annulerAction st u role r

/-- Run a sequence of operations, keeping only the final state. -/
def runOps (st : EngineState) : List Op → EngineState
  | [] => st
  | op :: ops => runOps (applyOp st op).1 ops

/-- Run a sequence of operations, collecting each call's result. -/
def runResults (st : EngineState) : List Op → List (Except EngineError Unit)
  | [] => []
  | op :: ops => (applyOp st op).2 :: runResults (applyOp st op).1 ops

/-- An initial state: empty reservation table over given catalogs. -/
def initState (storageOk : Bool) (salles : List Nat)
    (types : List TypeEvenement) : EngineState :=
  { db := [], nextId := 1, clock := 0, storageOk := storageOk,
    salles := salles, types := types }

/-- Two reservations double-book each other when both are active, share
room and date, and their half-open intervals intersect (spec section 3). -/
def conflictPair (a b : Reservation) : Prop :=
  actif a.statut = true ∧ actif b.statut = true ∧
    a.salleID = b.salleID ∧ a.dateReservation = b.dateReservation ∧
    a.heureDebut < b.heureFin ∧ b.heureDebut < a.heureFin

instance : DecidablePred (fun p : Reservation × Reservation => conflictPair p.1 p.2) :=
  fun _ => by unfold conflictPair; infer_instance

/-- The no-double-booking invariant: no two distinct rows of the table
conflict. -/
def noDoubleBooking (db : List Reservation) : Prop :=
  db.Pairwise (fun a b => ¬ conflictPair a b)

/-- `get_reservations_pending` (src/app.py lines 116-129): the SQL
`WHERE Statut = 'EnAttente' ORDER BY DateCreation ASC`, i.e. filter the
pending rows and sort them by creation time ascending. -/
def get_reservations_pending (db : List Reservation) : List Reservation :=
  List.insertionSort (fun a b => a.dateCreation ≤ b.dateCreation)
    (db.filter (fun r => r.statut == Statut.enAttente))

instance : IsTotal Reservation (fun a b => a.dateCreation ≤ b.dateCreation) :=
  ⟨fun a b => Nat.le_total a.dateCreation b.dateCreation⟩

instance : IsTrans Reservation (fun a b => a.dateCreation ≤ b.dateCreation) :=
  ⟨fun _ _ _ h1 h2 => Nat.le_trans h1 h2⟩

/-- A Pending reservation used to exercise the Refuser flow on a
concrete state. -/
def rDemoPending : Reservation :=
  { reservationID := 1, userID := 5, salleID := 1, typeID := 1,
    objetReunion := ['r'], dateReservation := 10, heureDebut := 540,
    heureFin := 600, statut := .enAttente, dateCreation := 0 }

/-- A concrete state holding the single pending reservation
`rDemoPending`. -/
def stDemoPending : EngineState :=
  { db := [rDemoPending], nextId := 2, clock := 1, storageOk := true,
    salles := [1], types := [⟨1, 30, 120⟩] }

/-- A second pending reservation, created earlier than `rDemoPending`. -/
def rDemoPendingOlder : Reservation :=
  { reservationID := 2, userID := 6, salleID := 1, typeID := 1,
    objetReunion := ['s'], dateReservation := 11, heureDebut := 540,
    heureFin := 600, statut := .enAttente, dateCreation := 3 }

/-- A Cancelled reservation used as a concrete terminal-state witness. -/
def rDemoTerminal : Reservation :=
  { reservationID := 1, userID := 5, salleID := 1, typeID := 1,
    objetReunion := ['r'], dateReservation := 10, heureDebut := 540,
    heureFin := 600, statut := .annulee, dateCreation := 0 }

/-- A concrete state holding the single terminal reservation
`rDemoTerminal`. -/
def stDemoTerminal : EngineState :=
  { db := [rDemoTerminal], nextId := 2, clock := 1, storageOk := true,
    salles := [1], types := [⟨1, 30, 120⟩] }

end SalleRes

namespace SalleRes

lemma reservation_page_state (st : EngineState) (u s t : Nat) (o : List Char)
    (d hd hf : Nat) :
    (reservation_page st u s t o d hd hf).1 = st ∨
    (hd < hf ∧ fn_SalleDisponible st.db s d hd hf = true ∧
      (reservation_page st u s t o d hd hf).1.db =
        mkReservation st u s t (pyStrip o) d hd hf :: st.db) := by
  unfold reservation_page sp_ReserverSalle
  cases hte : List.find? (fun te => te.typeID == t) st.types with
  | none => dsimp only; split_ifs <;> (left; rfl)
  | some te =>
    dsimp only
    split_ifs with h1 h2 h3 h4 h5 h6 h7
    all_goals try (left; rfl)
    right
    exact ⟨by omega, by simpa using h7, rfl⟩

lemma sp_ValiderReservation_state (st : EngineState) (m resID : Nat) :
    (sp_ValiderReservation st m resID).1 = st ∨
    (sp_ValiderReservation st m resID).1.db = st.db.map (validerMap resID) := by
  unfold sp_ValiderReservation
  cases hr : List.find? (fun e => e.reservationID == resID) st.db with
  | none => dsimp only; split_ifs <;> (left; rfl)
  | some r =>
    dsimp only
    split_ifs with h1 h2
    · left; rfl
    · right; rfl
    · left; rfl

lemma sp_AnnulerReservation_state (st : EngineState) (u : Nat) (role : Role)
    (resID : Nat) :
    (sp_AnnulerReservation st u role resID).1 = st ∨
    (sp_AnnulerReservation st u role resID).1.db = st.db.map (annulerMap resID) := by
  unfold sp_AnnulerReservation
  cases hr : List.find? (fun e => e.reservationID == resID) st.db with
  | none => dsimp only; split_ifs <;> (left; rfl)
  | some r =>
    dsimp only
    split_ifs with h1 h2 h3
    · left; rfl
    · left; rfl
    · right; rfl
    · left; rfl

lemma validerMap_fields (resID : Nat) (e : Reservation) :
    (validerMap resID e).salleID = e.salleID ∧
    (validerMap resID e).dateReservation = e.dateReservation ∧
    (validerMap resID e).heureDebut = e.heureDebut ∧
    (validerMap resID e).heureFin = e.heureFin ∧
    (actif (validerMap resID e).statut = true → actif e.statut = true) := by
  unfold validerMap
  split_ifs with h
  · refine ⟨rfl, rfl, rfl, rfl, fun _ => ?_⟩
    have : e.statut = Statut.enAttente := by simpa using (Bool.and_elim_right h)
    simp [actif, this]
  · exact ⟨rfl, rfl, rfl, rfl, fun hh => hh⟩

lemma annulerMap_fields (resID : Nat) (e : Reservation) :
    (annulerMap resID e).salleID = e.salleID ∧
    (annulerMap resID e).dateReservation = e.dateReservation ∧
    (annulerMap resID e).heureDebut = e.heureDebut ∧
    (annulerMap resID e).heureFin = e.heureFin ∧
    (actif (annulerMap resID e).statut = true → actif e.statut = true) := by
  unfold annulerMap
  split_ifs with h
  · refine ⟨rfl, rfl, rfl, rfl, fun hh => ?_⟩
    simp [actif] at hh
  · exact ⟨rfl, rfl, rfl, rfl, fun hh => hh⟩

lemma noDoubleBooking_map (db : List Reservation) (f : Reservation → Reservation)
    (hf : ∀ e, (f e).salleID = e.salleID ∧ (f e).dateReservation = e.dateReservation ∧
      (f e).heureDebut = e.heureDebut ∧ (f e).heureFin = e.heureFin ∧
      (actif (f e).statut = true → actif e.statut = true))
    (h : noDoubleBooking db) : noDoubleBooking (db.map f) := by
  unfold noDoubleBooking at *
  rw [List.pairwise_map]
  refine h.imp ?_
  intro a b hab hcon
  obtain ⟨ha1, ha2, ha3, ha4, ha5, ha6⟩ := hcon
  obtain ⟨fa1, fa2, fa3, fa4, fa5⟩ := hf a
  obtain ⟨fb1, fb2, fb3, fb4, fb5⟩ := hf b
  exact hab ⟨fa5 ha1, fb5 ha2, by rw [fa1, fb1] at ha3; exact ha3,
    by rw [fa2, fb2] at ha4; exact ha4,
    by rw [fa3, fb4] at ha5; exact ha5,
    by rw [fb3, fa4] at ha6; exact ha6⟩

lemma noDoubleBooking_insert (st : EngineState) (u s t : Nat) (o : List Char)
    (d hd hf : Nat)
    (hfree : fn_SalleDisponible st.db s d hd hf = true)
    (h : noDoubleBooking st.db) :
    noDoubleBooking (mkReservation st u s t o d hd hf :: st.db) := by
  unfold noDoubleBooking at *
  refine List.Pairwise.cons ?_ h
  intro e he hcon
  have hall := (List.all_eq_true).mp hfree e he
  obtain ⟨h1, h2, h3, h4, h5, h6⟩ := hcon
  simp only [mkReservation] at h1 h3 h4 h5 h6
  simp only [Bool.not_eq_true', Bool.and_eq_false_iff] at hall
  rcases hall with hna | hnc
  · rw [hna] at h2; exact Bool.false_ne_true h2
  · unfold chevauche at hnc
    simp only [Bool.and_eq_false_iff, beq_eq_false_iff_ne, decide_eq_false_iff_not,
      not_lt] at hnc
    rcases hnc with ((⟨hx | hx⟩ | hx) | hx)
    · exact hx h3.symm
    · exact hx h4.symm
    · omega
    · omega

lemma applyOp_preserves (st : EngineState) (op : Op)
    (h : noDoubleBooking st.db) : noDoubleBooking (applyOp st op).1.db := by
  cases op with
  | request u s t o d hd hf =>
    rcases reservation_page_state st u s t o d hd hf with hst | ⟨hlt, hfree, hdb⟩
    · rw [show (applyOp st (.request u s t o d hd hf)).1 = (reservation_page st u s t o d hd hf).1 from rfl, hst]; exact h
    · rw [show (applyOp st (.request u s t o d hd hf)).1 = (reservation_page st u s t o d hd hf).1 from rfl, hdb]
      exact noDoubleBooking_insert st u s t (pyStrip o) d hd hf hfree h
  | valider role m r =>
    show noDoubleBooking (validerAction st role m r).1.db
    unfold validerAction
    split_ifs with h1
    · exact h
    · rcases sp_ValiderReservation_state st m r with hst | hdb
      · rw [hst]; exact h
      · rw [hdb]; exact noDoubleBooking_map _ _ (validerMap_fields r) h
  | refuser role m r =>
    show noDoubleBooking (refuserAction st role m r).1.db
    unfold refuserAction
    split_ifs with h1
    · exact h
    · rcases sp_AnnulerReservation_state st m role r with hst | hdb
      · rw [hst]; exact h
      · rw [hdb]; exact noDoubleBooking_map _ _ (annulerMap_fields r) h
  | annuler u role r =>
    show noDoubleBooking (annulerAction st u role r).1.db
    unfold annulerAction
    rcases sp_AnnulerReservation_state st u role r with hst | hdb
    · rw [hst]; exact h
    · rw [hdb]; exact noDoubleBooking_map _ _ (annulerMap_fields r) h

lemma runOps_preserves (ops : List Op) (st : EngineState)
    (h : noDoubleBooking st.db) : noDoubleBooking (runOps st ops).db := by
  induction ops generalizing st with
  | nil => exact h
  | cons op ops ih => exact ih _ (applyOp_preserves st op h)

/-- C1: No double-booking invariant: starting from an empty reservation
table, after any sequence of RequestReservation, Approve/Reject/Cancel
operations, no two distinct active reservations on the same room and
date have overlapping half-open time intervals. -/
theorem no_double_booking_invariant (storageOk : Bool) (salles : List Nat)
    (types : List TypeEvenement) (ops : List Op) :
    noDoubleBooking (runOps (initState storageOk salles types) ops).db :=
  runOps_preserves ops _ (List.Pairwise.nil)

lemma reservation_page_success (st : EngineState) (u s t : Nat) (o : List Char)
    (d hd hf : Nat) (te : TypeEvenement)
    (hstorage : st.storageOk = true)
    (hsub : (pyStrip o).isEmpty = false)
    (hlt : hd < hf)
    (hroom : st.salles.contains s = true)
    (hte : st.types.find? (fun x => x.typeID == t) = some te)
    (hmin : te.dureeMin ≤ hf - hd) (hmax : hf - hd ≤ te.dureeMax)
    (hfree : fn_SalleDisponible st.db s d hd hf = true) :
    reservation_page st u s t o d hd hf =
      ({ st with db := mkReservation st u s t (pyStrip o) d hd hf :: st.db,
                 nextId := st.nextId + 1, clock := st.clock + 1 }, .ok ()) := by
  unfold reservation_page sp_ReserverSalle
  rw [hte]
  dsimp only
  split_ifs with h1 h2 h3 h4 h5 h6 h7
  · exact absurd h1 (by simp [hsub])
  · omega
  · exact absurd h3 (by simp [check_availability, hstorage, hfree])
  · exact absurd h4 (by simp [hstorage])
  · rw [Bool.not_eq_true'] at h5; rw [h5] at hroom; exact absurd hroom (by simp)
  · simp only [Bool.or_eq_true, decide_eq_true_eq] at h6; omega
  · exact absurd h7 (by simp [hfree])
  · rfl

lemma reservation_page_busy (st : EngineState) (u s t : Nat) (o : List Char)
    (d hd hf : Nat)
    (hstorage : st.storageOk = true)
    (hsub : (pyStrip o).isEmpty = false)
    (hlt : hd < hf)
    (hbusy : fn_SalleDisponible st.db s d hd hf = false) :
    reservation_page st u s t o d hd hf = (st, .error .conflict) := by
  unfold reservation_page
  split_ifs with h1 h2 h3
  · exact absurd h1 (by simp [hsub])
  · omega
  · rfl
  · exact absurd (by simp [check_availability, hstorage, hbusy] : ¬ check_availability st.storageOk st.db s d hd hf = true) (by simpa using h3)

lemma fn_SalleDisponible_false_of_mem (db : List Reservation)
    (r : Reservation) (s d hd hf : Nat) (hmem : r ∈ db)
    (hactif : actif r.statut = true) (hchev : chevauche r s d hd hf = true) :
    fn_SalleDisponible db s d hd hf = false := by
  unfold fn_SalleDisponible
  rw [List.all_eq_false]
  exact ⟨r, hmem, by simp [hactif, hchev]⟩

lemma runResults_conflict (u s t : Nat) (o : List Char) (d hd hf : Nat)
    (r : Reservation) (n : Nat) :
    ∀ st : EngineState, st.storageOk = true →
      (pyStrip o).isEmpty = false → hd < hf →
      r ∈ st.db → actif r.statut = true → chevauche r s d hd hf = true →
      runResults st (List.replicate n (Op.request u s t o d hd hf)) =
        List.replicate n (Except.error EngineError.conflict) := by
  induction n with
  | zero => intro st _ _ _ _ _ _; rfl
  | succ n ih =>
    intro st hstorage hsub hlt hmem hactif hchev
    have hbusy := fn_SalleDisponible_false_of_mem st.db r s d hd hf hmem hactif hchev
    have hpage := reservation_page_busy st u s t o d hd hf hstorage hsub hlt hbusy
    rw [List.replicate_succ]
    show (reservation_page st u s t o d hd hf).2 ::
        runResults (reservation_page st u s t o d hd hf).1
          (List.replicate n (Op.request u s t o d hd hf)) = _
    rw [hpage, List.replicate_succ]
    exact congrArg (List.cons _) (ih st hstorage hsub hlt hmem hactif hchev)

/-- C2: Atomic check-and-insert under contention: a serialized run of
N+1 identical RequestReservation calls for the same (room, date,
interval) against a free slot yields exactly one success (the first in
the serialization order); every other call fails with Conflict. -/
theorem atomic_check_and_insert (st : EngineState) (u s t : Nat) (o : List Char)
    (d hd hf : Nat) (te : TypeEvenement) (n : Nat)
    (hstorage : st.storageOk = true)
    (hsub : (pyStrip o).isEmpty = false)
    (hlt : hd < hf)
    (hroom : st.salles.contains s = true)
    (hte : st.types.find? (fun x => x.typeID == t) = some te)
    (hmin : te.dureeMin ≤ hf - hd) (hmax : hf - hd ≤ te.dureeMax)
    (hfree : fn_SalleDisponible st.db s d hd hf = true) :
    runResults st (List.replicate (n + 1) (Op.request u s t o d hd hf)) =
      Except.ok () :: List.replicate n (Except.error EngineError.conflict) := by
  have hsucc := reservation_page_success st u s t o d hd hf te hstorage hsub hlt
    hroom hte hmin hmax hfree
  rw [List.replicate_succ]
  show (reservation_page st u s t o d hd hf).2 ::
      runResults (reservation_page st u s t o d hd hf).1
        (List.replicate n (Op.request u s t o d hd hf)) = _
  rw [hsucc]
  refine congrArg (List.cons _) ?_
  exact runResults_conflict u s t o d hd hf
    (mkReservation st u s t (pyStrip o) d hd hf) n _ hstorage hsub hlt
    (List.mem_cons_self _ _) rfl (by simp [mkReservation, chevauche, hlt])

/-- C2 witness: three racing identical requests on a free slot in a
concrete state: the first succeeds, the other two get Conflict. -/
theorem atomic_check_and_insert_witness :
    runResults (initState true [1] [⟨1, 30, 120⟩])
        (List.replicate 3 (Op.request 7 1 1 ['r', 'e', 'u'] 10 540 600)) =
      Except.ok () :: List.replicate 2 (Except.error EngineError.conflict) :=
  atomic_check_and_insert (initState true [1] [⟨1, 30, 120⟩]) 7 1 1
    ['r', 'e', 'u'] 10 540 600 ⟨1, 30, 120⟩ 2 rfl rfl (by decide) rfl rfl
    (by decide) (by decide) rfl

/-- C3: the Refuser (Reject) action of `validation_page` on a Pending
reservation routes through `sp_AnnulerReservation` (src/app.py line 357),
so the reservation ends up `Annulee` (Cancelled), not `Refusee`
(Rejected): evaluated at a concrete Pending reservation, the action
reports success and the stored status is `Annulee`. -/
theorem reject_pending_yields_cancelled :
    (refuserAction stDemoPending Role.manager 99 1).2 = Except.ok () ∧
    (refuserAction stDemoPending Role.manager 99 1).1.db.map Reservation.statut
      = [Statut.annulee] ∧
    Statut.annulee ≠ Statut.refusee :=
  ⟨rfl, by decide, by decide⟩

lemma terminal_actif_false (s : Statut) (h : terminal s = true) :
    actif s = false := by
  cases s <;> simp_all [terminal, actif]

lemma validerMap_terminal (resID : Nat) (e : Reservation)
    (h : terminal e.statut = true) : validerMap resID e = e := by
  unfold validerMap
  rw [if_neg]
  intro hc
  have he : e.statut = Statut.enAttente := by
    simpa using (Bool.and_elim_right hc)
  rw [he] at h
  simp [terminal] at h

lemma annulerMap_terminal (resID : Nat) (e : Reservation)
    (h : terminal e.statut = true) : annulerMap resID e = e := by
  unfold annulerMap
  rw [if_neg]
  intro hc
  have := Bool.and_elim_right hc
  rw [terminal_actif_false e.statut h] at this
  exact Bool.false_ne_true this

lemma terminal_mem_applyOp (st : EngineState) (op : Op) (r : Reservation)
    (hmem : r ∈ st.db) (hterm : terminal r.statut = true) :
    r ∈ (applyOp st op).1.db := by
  cases op with
  | request u s t o d hd hf =>
    rcases reservation_page_state st u s t o d hd hf with hst | ⟨_, _, hdb⟩
    · show r ∈ (reservation_page st u s t o d hd hf).1.db
      rw [hst]; exact hmem
    · show r ∈ (reservation_page st u s t o d hd hf).1.db
      rw [hdb]; exact List.mem_cons_of_mem _ hmem
  | valider role m i =>
    show r ∈ (validerAction st role m i).1.db
    unfold validerAction
    split_ifs with h1
    · exact hmem
    · rcases sp_ValiderReservation_state st m i with hst | hdb
      · rw [hst]; exact hmem
      · rw [hdb, ← validerMap_terminal i r hterm]
        exact List.mem_map_of_mem _ hmem
  | refuser role m i =>
    show r ∈ (refuserAction st role m i).1.db
    unfold refuserAction
    split_ifs with h1
    · exact hmem
    · rcases sp_AnnulerReservation_state st m role i with hst | hdb
      · rw [hst]; exact hmem
      · rw [hdb, ← annulerMap_terminal i r hterm]
        exact List.mem_map_of_mem _ hmem
  | annuler u role i =>
    show r ∈ (annulerAction st u role i).1.db
    unfold annulerAction
    rcases sp_AnnulerReservation_state st u role i with hst | hdb
    · rw [hst]; exact hmem
    · rw [hdb, ← annulerMap_terminal i r hterm]
      exact List.mem_map_of_mem _ hmem

lemma terminal_mem_runOps (ops : List Op) (st : EngineState) (r : Reservation)
    (hmem : r ∈ st.db) (hterm : terminal r.statut = true) :
    r ∈ (runOps st ops).db := by
  induction ops generalizing st with
  | nil => exact hmem
  | cons op ops ih => exact ih _ (terminal_mem_applyOp st op r hmem hterm)

lemma sp_ValiderReservation_terminal (st : EngineState) (m resID : Nat)
    (r : Reservation) (hstorage : st.storageOk = true)
    (hfind : st.db.find? (fun e => e.reservationID == resID) = some r)
    (hterm : terminal r.statut = true) :
    sp_ValiderReservation st m resID =
      (st, Except.error EngineError.illegalTransition) := by
  unfold sp_ValiderReservation
  rw [if_neg (by simp [hstorage]), hfind]
  dsimp only
  rw [if_neg]
  intro hc
  have he : r.statut = Statut.enAttente := by simpa using hc
  rw [he] at hterm
  simp [terminal] at hterm

lemma sp_AnnulerReservation_terminal (st : EngineState) (u : Nat) (role : Role)
    (resID : Nat) (r : Reservation) (hstorage : st.storageOk = true)
    (hfind : st.db.find? (fun e => e.reservationID == resID) = some r)
    (hterm : terminal r.statut = true)
    (hauth : (r.userID == u || role == Role.manager || role == Role.admin) = true) :
    sp_AnnulerReservation st u role resID =
      (st, Except.error EngineError.illegalTransition) := by
  unfold sp_AnnulerReservation
  rw [if_neg (by simp [hstorage]), hfind]
  dsimp only
  rw [if_neg (by simp [hauth]), if_neg]
  rw [terminal_actif_false r.statut hterm]
  exact Bool.false_ne_true

/-- C6: terminal states are absorbing: a reservation whose status is
Rejected or Cancelled survives every further operation sequence
unchanged, and every Approve, Reject or Cancel attempt on it by an
authorized actor fails with IllegalTransition. -/
theorem terminal_states_absorbing (st : EngineState) (resID : Nat)
    (r : Reservation) (hstorage : st.storageOk = true)
    (hfind : st.db.find? (fun e => e.reservationID == resID) = some r)
    (hterm : terminal r.statut = true) :
    (∀ ops : List Op, r ∈ (runOps st ops).db) ∧
    (∀ role managerID, role = Role.manager ∨ role = Role.admin →
      validerAction st role managerID resID =
        (st, Except.error EngineError.illegalTransition) ∧
      refuserAction st role managerID resID =
        (st, Except.error EngineError.illegalTransition)) ∧
    (∀ u role, r.userID = u ∨ role = Role.manager ∨ role = Role.admin →
      sp_AnnulerReservation st u role resID =
        (st, Except.error EngineError.illegalTransition)) := by
  refine ⟨?_, ?_, ?_⟩
  · intro ops
    exact terminal_mem_runOps ops st r (List.mem_of_find?_eq_some hfind) hterm
  · intro role m hrole
    constructor
    · unfold validerAction
      rw [if_neg (by rcases hrole with h | h <;> simp [h])]
      exact sp_ValiderReservation_terminal st m resID r hstorage hfind hterm
    · unfold refuserAction
      rw [if_neg (by rcases hrole with h | h <;> simp [h])]
      exact sp_AnnulerReservation_terminal st m role resID r hstorage hfind hterm
        (by rcases hrole with h | h <;> simp [h])
  · intro u role hauth
    exact sp_AnnulerReservation_terminal st u role resID r hstorage hfind hterm
      (by rcases hauth with h | h | h <;> simp [h])

/-- C6 witness: on a concrete Cancelled reservation, it survives a
subsequent Approve attempt and that attempt fails with
IllegalTransition. -/
theorem terminal_states_absorbing_witness :
    rDemoTerminal ∈ (runOps stDemoTerminal [Op.valider Role.manager 9 1]).db ∧
    validerAction stDemoTerminal Role.manager 9 1 =
      (stDemoTerminal, Except.error EngineError.illegalTransition) :=
  ⟨(terminal_states_absorbing stDemoTerminal 1 rDemoTerminal rfl rfl rfl).1
      [Op.valider Role.manager 9 1],
   ((terminal_states_absorbing stDemoTerminal 1 rDemoTerminal rfl rfl rfl).2.1
      Role.manager 9 (Or.inl rfl)).1⟩

/-- C7: authorization precedence: for any actor whose role is neither
Manager nor Admin, the Approve and Reject actions fail with Forbidden
for every state — whether or not the target reservation exists and
whatever its status — because the role gate runs before any lookup. -/
theorem authorization_precedes_lookup (st : EngineState) (role : Role)
    (managerID resID : Nat)
    (hrole : role ≠ Role.manager ∧ role ≠ Role.admin) :
    validerAction st role managerID resID =
      (st, Except.error EngineError.forbidden) ∧
    refuserAction st role managerID resID =
      (st, Except.error EngineError.forbidden) := by
  have hb : (role == Role.manager || role == Role.admin) = false := by
    cases role <;> simp_all
  constructor
  · unfold validerAction
    rw [if_pos (by simp [hb])]
  · unfold refuserAction
    rw [if_pos (by simp [hb])]

/-- C7 witness: an Employe hitting Approve on a state whose reservation
table is empty (the target does not even exist) still gets Forbidden,
not NotFound. -/
theorem authorization_precedes_lookup_witness :
    validerAction (initState true [] []) Role.employe 3 1 =
      (initState true [] [], Except.error EngineError.forbidden) ∧
    refuserAction (initState true [] []) Role.employe 3 1 =
      (initState true [] [], Except.error EngineError.forbidden) :=
  authorization_precedes_lookup (initState true [] []) Role.employe 3 1
    (by exact ⟨by decide, by decide⟩)

/-- C8: input validation of RequestReservation: a subject that strips to
empty fails with the empty-subject InvalidInput, an interval with
`heure_fin <= heure_debut` fails with the interval InvalidInput, both
without touching the state, and when both are violated the
empty-subject error wins (the subject check runs first). -/
theorem request_input_validation (st : EngineState) (u s t : Nat)
    (o : List Char) (d hd hf : Nat) :
    ((pyStrip o).isEmpty = true →
      reservation_page st u s t o d hd hf =
        (st, Except.error EngineError.invalidInputEmptySubject)) ∧
    ((pyStrip o).isEmpty = false → hf ≤ hd →
      reservation_page st u s t o d hd hf =
        (st, Except.error EngineError.invalidInputBadInterval)) ∧
    ((pyStrip o).isEmpty = true → hf ≤ hd →
      reservation_page st u s t o d hd hf =
        (st, Except.error EngineError.invalidInputEmptySubject)) := by
  refine ⟨?_, ?_, ?_⟩
  · intro h
    unfold reservation_page
    rw [if_pos h]
  · intro h1 h2
    unfold reservation_page
    rw [if_neg (by simp [h1]), if_pos h2]
  · intro h _
    unfold reservation_page
    rw [if_pos h]

/-- C8 witness: a whitespace-only subject together with an inverted
interval yields the empty-subject error; a nonempty subject with the
inverted interval yields the interval error; both leave the state
unchanged. -/
theorem request_input_validation_witness :
    reservation_page (initState true [1] [⟨1, 30, 120⟩]) 7 1 1 [' '] 10 600 540 =
      (initState true [1] [⟨1, 30, 120⟩],
        Except.error EngineError.invalidInputEmptySubject) ∧
    reservation_page (initState true [1] [⟨1, 30, 120⟩]) 7 1 1 ['r'] 10 600 540 =
      (initState true [1] [⟨1, 30, 120⟩],
        Except.error EngineError.invalidInputBadInterval) :=
  ⟨(request_input_validation (initState true [1] [⟨1, 30, 120⟩]) 7 1 1
      [' '] 10 600 540).2.2 rfl (by decide),
   (request_input_validation (initState true [1] [⟨1, 30, 120⟩]) 7 1 1
      ['r'] 10 600 540).2.1 rfl (by decide)⟩

lemma pyStrip_of_all_space (o : List Char) (h : o.all pyIsSpace = true) :
    pyStrip o = [] := by
  unfold pyStrip
  have hd : o.dropWhile pyIsSpace = [] := by
    rw [List.dropWhile_eq_nil_iff]
    exact fun x hx => List.all_eq_true.mp h x hx
  rw [hd]
  rfl

lemma reservation_page_ok_db (st : EngineState) (u s t : Nat) (o : List Char)
    (d hd hf : Nat)
    (hok : (reservation_page st u s t o d hd hf).2 = Except.ok ()) :
    (reservation_page st u s t o d hd hf).1.db =
      mkReservation st u s t (pyStrip o) d hd hf :: st.db := by
  unfold reservation_page sp_ReserverSalle at *
  revert hok
  cases hte : List.find? (fun te => te.typeID == t) st.types with
  | none => dsimp only; split_ifs <;> intro hok <;> simp_all
  | some te =>
    dsimp only
    split_ifs <;> intro hok <;> first | rfl | simp_all

/-- C10: subject normalization: a subject made only of whitespace is
rejected exactly like an empty one, and every accepted request stores
the submitted subject with leading and trailing whitespace stripped. -/
theorem subject_normalization (st : EngineState) (u s t : Nat) (o : List Char)
    (d hd hf : Nat) :
    (o.all pyIsSpace = true →
      reservation_page st u s t o d hd hf =
        (st, Except.error EngineError.invalidInputEmptySubject)) ∧
    ((reservation_page st u s t o d hd hf).2 = Except.ok () →
      ∃ rNew, (reservation_page st u s t o d hd hf).1.db = rNew :: st.db ∧
        rNew.objetReunion = pyStrip o) := by
  constructor
  · intro h
    unfold reservation_page
    rw [if_pos (by rw [pyStrip_of_all_space o h]; rfl)]
  · intro hok
    exact ⟨mkReservation st u s t (pyStrip o) d hd hf,
      reservation_page_ok_db st u s t o d hd hf hok, rfl⟩

/-- C10 witness: a tab-and-space subject is rejected as empty, and the
accepted subject with surrounding whitespace is stored stripped. -/
theorem subject_normalization_witness :
    reservation_page (initState true [1] [⟨1, 30, 120⟩]) 7 1 1 [' ', '\t'] 10 540 600 =
      (initState true [1] [⟨1, 30, 120⟩],
        Except.error EngineError.invalidInputEmptySubject) ∧
    ∃ rNew, (reservation_page (initState true [1] [⟨1, 30, 120⟩]) 7 1 1
        [' ', 'a', '\t'] 10 540 600).1.db = rNew :: (initState true [1] [⟨1, 30, 120⟩]).db ∧
      rNew.objetReunion = pyStrip [' ', 'a', '\t'] :=
  ⟨(subject_normalization (initState true [1] [⟨1, 30, 120⟩]) 7 1 1
      [' ', '\t'] 10 540 600).1 (by decide),
   (subject_normalization (initState true [1] [⟨1, 30, 120⟩]) 7 1 1
      [' ', 'a', '\t'] 10 540 600).2 rfl⟩

/-- C4: duration-bound validation: whenever the event type's duration
bounds are violated, no reservation is created (the state is unchanged),
and when every earlier check passes (valid subject and interval, working
storage, existing room, free slot) the reported error is the duration
InvalidInput coming from the EventType lookup. -/
theorem duration_bound_validation (st : EngineState) (u s t : Nat)
    (o : List Char) (d hd hf : Nat) (te : TypeEvenement)
    (hte : st.types.find? (fun x => x.typeID == t) = some te)
    (hbad : hf - hd < te.dureeMin ∨ te.dureeMax < hf - hd) :
    (reservation_page st u s t o d hd hf).1 = st ∧
    (st.storageOk = true → (pyStrip o).isEmpty = false → hd < hf →
      st.salles.contains s = true →
      fn_SalleDisponible st.db s d hd hf = true →
      (reservation_page st u s t o d hd hf).2 =
        Except.error EngineError.invalidInputDuration) := by
  constructor
  · unfold reservation_page sp_ReserverSalle
    rw [hte]
    dsimp only
    split_ifs with h1 h2 h3 h4 h5 h6 h7 <;> try rfl
    simp only [Bool.or_eq_true, decide_eq_true_eq, not_or] at h6
    omega
  · intro hstorage hsub hlt hroom hfree
    unfold reservation_page sp_ReserverSalle
    rw [hte]
    dsimp only
    rw [if_neg (by simp [hsub]), if_neg (by omega),
      if_neg (by simp [check_availability, hstorage, hfree]),
      if_neg (by simp [hstorage]),
      if_neg (by rw [Bool.not_eq_true', Bool.not_eq_false]; exact hroom),
      if_neg (by omega), if_pos (by rcases hbad with h | h <;> simp [h])]

/-- C4 witness: a 10-minute request against an event type requiring at
least 30 minutes creates nothing and reports the duration error. -/
theorem duration_bound_validation_witness :
    (reservation_page (initState true [1] [⟨1, 30, 120⟩]) 7 1 1 ['r'] 10 540 550).1
      = initState true [1] [⟨1, 30, 120⟩] ∧
    (reservation_page (initState true [1] [⟨1, 30, 120⟩]) 7 1 1 ['r'] 10 540 550).2
      = Except.error EngineError.invalidInputDuration :=
  ⟨(duration_bound_validation (initState true [1] [⟨1, 30, 120⟩]) 7 1 1
      ['r'] 10 540 550 ⟨1, 30, 120⟩ rfl (Or.inl (by decide))).1,
   (duration_bound_validation (initState true [1] [⟨1, 30, 120⟩]) 7 1 1
      ['r'] 10 540 550 ⟨1, 30, 120⟩ rfl (Or.inl (by decide))).2
      rfl rfl (by decide) rfl rfl⟩

/-- C5 counterexample: when the storage lookup fails,
`check_availability` evaluates to the boolean `false` — its return type
is `Bool`, no error is reported — even on an empty reservation table
where `fn_SalleDisponible` itself would report the room available, so
`false` is not returned only when some active reservation overlaps. -/
theorem check_availability_failure_counterexample :
    check_availability false [] 1 1 540 600 = false ∧
    fn_SalleDisponible [] 1 1 540 600 = true := by decide

/-- C5 amended: `check_availability` returns `false` both when the
lookup fails and when, with the lookup succeeding, some active
reservation overlaps the interval; a `false` result therefore conflates
"room busy" with "could not determine availability". -/
theorem check_availability_amended (db : List Reservation) (s d hd hf : Nat) :
    check_availability false db s d hd hf = false ∧
    (check_availability true db s d hd hf = false ↔
      ∃ r ∈ db, actif r.statut = true ∧ chevauche r s d hd hf = true) := by
  refine ⟨rfl, ?_⟩
  simp [check_availability, fn_SalleDisponible, List.all_eq_false]

/-- C9: `get_reservations_pending` returns a permutation of exactly the
rows whose status is `EnAttente`, sorted by `DateCreation` ascending:
a reservation is listed iff it is a pending row of the table, and the
listing is ordered oldest first. -/
theorem list_pending_ordering (db : List Reservation) :
    (get_reservations_pending db).Perm
        (db.filter (fun r => r.statut == Statut.enAttente)) ∧
    List.Sorted (fun a b => a.dateCreation ≤ b.dateCreation)
        (get_reservations_pending db) ∧
    (∀ r, r ∈ get_reservations_pending db ↔
      r ∈ db ∧ r.statut = Statut.enAttente) := by
  refine ⟨List.perm_insertionSort _ _, List.sorted_insertionSort _ _, ?_⟩
  intro r
  unfold get_reservations_pending
  rw [(List.perm_insertionSort _ _).mem_iff, List.mem_filter]
  simp

/-- C9 witness: on a concrete table holding a newer pending row, an
older pending row and a cancelled row, the pending listing is sorted by
creation time and the cancelled row is excluded. -/
theorem list_pending_ordering_witness :
    List.Sorted (fun a b => a.dateCreation ≤ b.dateCreation)
      (get_reservations_pending
        [{ rDemoPending with dateCreation := 7 }, rDemoPendingOlder, rDemoTerminal]) ∧
    (rDemoTerminal ∈ get_reservations_pending
        [{ rDemoPending with dateCreation := 7 }, rDemoPendingOlder, rDemoTerminal] ↔
      rDemoTerminal ∈
        [{ rDemoPending with dateCreation := 7 }, rDemoPendingOlder, rDemoTerminal] ∧
      rDemoTerminal.statut = Statut.enAttente) :=
  ⟨(list_pending_ordering _).2.1, (list_pending_ordering _).2.2 rDemoTerminal⟩

end SalleRes
